import Mathlib

/-!
Shallow embedding of the vizio-smart-cast client library (src/index.js) and
verification of its specification claims.

The library is a promise-based HTTP client for a SmartCast TV.  Each operation
is embedded as a pure function from the session state and the transport results
it consumes to the list of HTTP requests it issues, the settlement of the
returned promise, and the updated session state.  JavaScript promise executors
that may call `reject` and then keep running are modelled by a settle list
whose first element is the promise's final settlement (first settle wins);
an empty settle list means the promise never settles (pending forever).

JavaScript numbers are idealised as rationals (no NaN among `number`-typed
values); non-number values carry their ToNumber coercion, `none` meaning NaN.
-/

namespace VizioSmartcast

/-- HTTP method used by the transport primitive (`request[method]`). -/
inductive Method
  | get
  | put
deriving DecidableEq

/-- One element of the KEYLIST of a key-command body (src/index.js `keyData`). -/
structure KeyItem where
  CODESET : Int
  CODE : Int
  ACTION : String
deriving DecidableEq

/-- A JavaScript number as it appears in a request body: an integer produced by
`Math.round`, or NaN when rounding a value whose ToNumber coercion is NaN. -/
inductive JsNumber
  | int (n : Int)
  | nan
deriving DecidableEq

/-- JSON request bodies constructed by src/index.js, one constructor per shape. -/
inductive Body
  | pairingStart (DEVICE_NAME DEVICE_ID : String)
  | pairingPair (DEVICE_ID : String) (CHALLENGE_TYPE : Nat) (RESPONSE_VALUE : String)
      (PAIRING_REQ_TOKEN : String)
  | keyBody (KEYLIST : List KeyItem)
  | modifyInput (REQUEST : String) (VALUE : String) (HASHVAL : Int)
  | modifyVolume (REQUEST : String) (VALUE : JsNumber) (HASHVAL : Int)
deriving DecidableEq

/-- An outgoing HTTP request as assembled by `sendRequest`: method, absolute
URL, the optional AUTH header, and the optional JSON body.  The URL string is
never altered by the auth key (tokens travel only in the header). -/
structure HttpReq where
  method : Method
  url : String
  auth : Option String
  body : Option Body
deriving DecidableEq

/-- Embedding of `sendRequest` (src/index.js lines 7-22): builds the request
object; the AUTH header is attached exactly when the passed auth key is truthy
(present and not the empty string). -/
def sendRequest (method : Method) (url : String) (authKey : Option String)
    (data : Option Body) : HttpReq :=
  { method := method
    url := url
    auth := match authKey with
      | some s => if s = "" then none else some s
      | none => none
    body := data }

/-- Result of one transport round trip: the parsed response, or a transport
failure (network error / non-2xx), carried as an opaque error string. -/
inductive TResult (α : Type)
  | ok (resp : α)
  | err (e : String)
deriving DecidableEq

/-- The STATUS object of a device response (`STATUS.RESULT`). -/
structure Status where
  RESULT : String
deriving DecidableEq

/-- The ITEM object of a pairing response (`ITEM.PAIRING_REQ_TOKEN`,
`ITEM.AUTH_TOKEN`). -/
structure PairItem where
  PAIRING_REQ_TOKEN : String
  AUTH_TOKEN : String
deriving DecidableEq

/-- A pairing response as read by the code; STATUS and ITEM may be absent
(accessing a field of an absent object throws a TypeError in JS). -/
structure PairResp where
  STATUS : Option Status
  ITEM : Option PairItem
deriving DecidableEq

/-- The VALUE object of an input-list item (`VALUE.NAME` is the user-assigned
display name). -/
structure InputValue where
  NAME : String
deriving DecidableEq

/-- One item of the input list: internal name and display-name object. -/
structure InputItem where
  NAME : String
  VALUE : InputValue
deriving DecidableEq

/-- Response of GET .../input: a STATUS and the list of input items. -/
structure InputListResp where
  STATUS : Status
  ITEMS : List InputItem
deriving DecidableEq

/-- One item of the current-input response; the code reads only its HASHVAL. -/
structure CurrentItem where
  HASHVAL : Int
deriving DecidableEq

/-- Response of GET .../input/current_input: a STATUS and the items list
(the code reads `ITEMS[0].HASHVAL`). -/
structure CurrentInputResp where
  STATUS : Status
  ITEMS : List CurrentItem
deriving DecidableEq

/-- One item of the audio-settings object; the code reads CNAME and HASHVAL. -/
structure AudioItem where
  CNAME : String
  HASHVAL : Int
deriving DecidableEq

/-- The audio-settings object consumed by `control.volume.set`
(`settings.ITEMS.find(i => i.CNAME === 'volume')`). -/
structure AudioResp where
  ITEMS : List AudioItem
deriving DecidableEq

/-- The value a promise is rejected with, one constructor per rejection shape
occurring in src/index.js. -/
inductive RejectReason
  | msg (s : String)
  | rawPair (r : PairResp)
  | both (list : InputListResp) (current : CurrentInputResp)
  | transport (e : String)
  | typeError
deriving DecidableEq

/-- Final state of the promise an operation returns: resolved, rejected, or
never settled. -/
inductive Outcome (α : Type)
  | resolved (v : α)
  | rejected (r : RejectReason)
  | pending
deriving DecidableEq

/-- One call to `resolve` or `reject` inside a promise executor. -/
inductive Settle (α : Type)
  | res (v : α)
  | rej (r : RejectReason)
deriving DecidableEq

/-- JavaScript promise semantics: the first settle call wins; with no settle
call the promise stays pending forever. -/
def settleOutcome {α : Type} : List (Settle α) → Outcome α
  | [] => Outcome.pending
  | Settle.res v :: _ => Outcome.resolved v
  | Settle.rej r :: _ => Outcome.rejected r

/-- Mutable session state captured by the `SMARTCAST` constructor's closures:
normalized host plus the four mutable variables. -/
structure Session where
  host : String
  pairingRequestToken : String
  authKey : String
  deviceId : String
  deviceName : String
deriving DecidableEq

/-- Default port appended when the caller's host has none. -/
def PORT : Nat := 9000

/-- URL scheme prefixed to the host. -/
def PROTO : String := "https://"

/-- Embedding of the `SMARTCAST` constructor (src/index.js lines 60-70):
normalizes the host and initialises the session variables. -/
def smartcast (host : String) (authKey : Option String) : Session :=
  let host1 := if host.contains ':' then host else host ++ ":" ++ toString PORT
  { host := PROTO ++ host1
    pairingRequestToken := ""
    authKey := authKey.getD ""
    deviceId := ""
    deviceName := "" }

/-- JavaScript `a || b` on an optional string: the default is used when the
value is absent or the empty string (both falsy). -/
def jsOr (v : Option String) (d : String) : String :=
  match v with
  | some s => if s = "" then d else s
  | none => d

/-- Result of running one operation: the HTTP requests it issued in order, the
settlement of the promise it returned, and the session state afterwards. -/
structure OpRun (α : Type) where
  requests : List HttpReq
  outcome : Outcome α
  state : Session
deriving DecidableEq

/-- Lifting a directly returned transport chain: resolve with the response or
propagate the transport failure as a rejection. -/
def chainOutcome {α : Type} : TResult α → Outcome α
  | TResult.ok r => Outcome.resolved r
  | TResult.err e => Outcome.rejected (RejectReason.transport e)

/-- Embedding of `power.currentMode` (src/index.js lines 77-80): a GET of
/state/device/power_mode with NO auth key passed to `sendRequest`. -/
def power_currentMode {α : Type} (s : Session) (res : TResult α) : OpRun α :=
  { requests := [sendRequest Method.get (s.host ++ "/state/device/power_mode") none none]
    outcome := chainOutcome res
    state := s }

/-- The string `pairing.initiate` rejects with on a BLOCKED result. -/
def blockedInitiateMsg : String :=
  "Failed to initiate the pairing process because a pairing request has already been initiated. Please wait for the pin to clear from the screen before initiating the pairing process again."

/-- Embedding of `pairing.initiate` (src/index.js lines 90-110).  `t1` and `t2`
are the two `new Date().getTime()` readings used for the default device name
and id.  The device name and id are overwritten before the request is built;
the pairing-request token is stored only on a SUCCESS result. -/
def pairing_initiate (s : Session) (deviceName deviceId : Option String)
    (t1 t2 : Nat) (res : TResult PairResp) : OpRun PairResp :=
  let name := jsOr deviceName ("node-app-" ++ toString t1)
  let id := jsOr deviceId ("node-app-" ++ toString t2)
  let s1 : Session := { s with deviceName := name, deviceId := id }
  let req := sendRequest Method.put (s.host ++ "/pairing/start") none
      (some (Body.pairingStart name id))
  match res with
  | TResult.err e =>
      { requests := [req], outcome := Outcome.rejected (RejectReason.transport e), state := s1 }
  | TResult.ok data =>
      match data.STATUS with
      | some st =>
          if st.RESULT = "SUCCESS" then
            match data.ITEM with
            | some item =>
                { requests := [req]
                  outcome := Outcome.resolved data
                  state := { s1 with pairingRequestToken := item.PAIRING_REQ_TOKEN } }
            | none =>
                { requests := [req], outcome := Outcome.rejected RejectReason.typeError
                  state := s1 }
          else if st.RESULT = "BLOCKED" then
            { requests := [req]
              outcome := Outcome.rejected (RejectReason.msg blockedInitiateMsg)
              state := s1 }
          else
            { requests := [req], outcome := Outcome.rejected (RejectReason.rawPair data)
              state := s1 }
      | none =>
          { requests := [req], outcome := Outcome.rejected RejectReason.typeError, state := s1 }

/-- Embedding of `pairing.pair` (src/index.js lines 117-132): PUTs the stored
device id, challenge type 1, the PIN and the stored pairing-request token; on a
SUCCESS response the returned AUTH_TOKEN becomes the session credential, on any
other response the state is unchanged. -/
def pairing_pair (s : Session) (pin : String) (res : TResult PairResp) : OpRun PairResp :=
  let req := sendRequest Method.put (s.host ++ "/pairing/pair") none
      (some (Body.pairingPair s.deviceId 1 pin s.pairingRequestToken))
  match res with
  | TResult.err e =>
      { requests := [req], outcome := Outcome.rejected (RejectReason.transport e), state := s }
  | TResult.ok data =>
      match data.STATUS with
      | none =>
          { requests := [req], outcome := Outcome.rejected RejectReason.typeError, state := s }
      | some st =>
          if st.RESULT = "SUCCESS" then
            match data.ITEM with
            | some item =>
                { requests := [req]
                  outcome := Outcome.resolved data
                  state := { s with authKey := item.AUTH_TOKEN } }
            | none =>
                { requests := [req], outcome := Outcome.rejected RejectReason.typeError
                  state := s }
          else
            { requests := [req], outcome := Outcome.rejected (RejectReason.rawPair data)
              state := s }

/-- Embedding of `keyData` (src/index.js lines 24-35): single-element KEYLIST;
a falsy action (absent or empty string) becomes KEYPRESS. -/
def keyData (codeset code : Int) (action : Option String) : Body :=
  let a := match action with
    | none => "KEYPRESS"
    | some act => if act = "" then "KEYPRESS" else act
  Body.keyBody [{ CODESET := codeset, CODE := code, ACTION := a }]

/-- Embedding of `control.keyCommand` (src/index.js lines 185-188): PUTs the
key body to /key_command/ with the stored auth key. -/
def control_keyCommand {α : Type} (s : Session) (codeset code : Int)
    (action : Option String) (res : TResult α) : OpRun α :=
  { requests := [sendRequest Method.put (s.host ++ "/key_command/") (some s.authKey)
      (some (keyData codeset code action))]
    outcome := chainOutcome res
    state := s }

/-- JavaScript `toLowerCase` on the strings occurring here (character-wise
lowercasing, as core `String.toLower` also performs). -/
def jsToLower (s : String) : String :=
  String.mk (s.data.map Char.toLower)

/-- Embedding of `findInputByName` (src/index.js lines 37-54): first scan for a
case-insensitive match on the internal name, then for one on the display name;
either way the item's stored internal NAME is returned. -/
def findInputByName (name : String) (list : InputListResp) : Option String :=
  match list.ITEMS.find? (fun it => jsToLower it.NAME = jsToLower name) with
  | some it => some it.NAME
  | none =>
      match list.ITEMS.find? (fun it => jsToLower it.VALUE.NAME = jsToLower name) with
      | some it => some it.NAME
      | none => none

/-- The request issued by `input.list`. -/
def input_list_req (s : Session) : HttpReq :=
  sendRequest Method.get (s.host ++ "/menu_native/dynamic/audio_settings/input")
    (some s.authKey) none

/-- The request issued by `input.current`. -/
def input_current_req (s : Session) : HttpReq :=
  sendRequest Method.get (s.host ++ "/menu_native/dynamic/audio_settings/input/current_input")
    (some s.authKey) none

/-- Embedding of `input.list` (src/index.js lines 149-151). -/
def input_list (s : Session) (res : TResult InputListResp) : OpRun InputListResp :=
  { requests := [input_list_req s], outcome := chainOutcome res, state := s }

/-- Embedding of `input.current` (src/index.js lines 152-154). -/
def input_current (s : Session) (res : TResult CurrentInputResp) : OpRun CurrentInputResp :=
  { requests := [input_current_req s], outcome := chainOutcome res, state := s }

/-- Embedding of `input.set` (src/index.js lines 155-181): both reads are
issued, then the name is resolved, the two statuses checked (rejecting with the
structured pair on failure), the not-found case rejected, and finally the
MODIFY request is issued with the resolved internal name and the HASHVAL of the
first current-input item (reading `ITEMS[0]` of an empty list throws). -/
def input_set {α : Type} (s : Session) (name : String)
    (listRes : TResult InputListResp) (curRes : TResult CurrentInputResp)
    (modRes : TResult α) : OpRun α :=
  let reads := [input_list_req s, input_current_req s]
  match listRes with
  | TResult.err e =>
      { requests := reads, outcome := Outcome.rejected (RejectReason.transport e), state := s }
  | TResult.ok inputList =>
      match curRes with
      | TResult.err e =>
          { requests := reads, outcome := Outcome.rejected (RejectReason.transport e)
            state := s }
      | TResult.ok currentInput =>
          if inputList.STATUS.RESULT ≠ "SUCCESS" ∨ currentInput.STATUS.RESULT ≠ "SUCCESS" then
            { requests := reads
              outcome := Outcome.rejected (RejectReason.both inputList currentInput)
              state := s }
          else
            match findInputByName name inputList with
            | none =>
                { requests := reads
                  outcome := Outcome.rejected
                    (RejectReason.msg ("Input: " ++ name ++ " not found"))
                  state := s }
            | some inputName =>
                match currentInput.ITEMS.head? with
                | none =>
                    { requests := reads
                      outcome := Outcome.rejected RejectReason.typeError
                      state := s }
                | some c0 =>
                    let data := Body.modifyInput "MODIFY" inputName c0.HASHVAL
                    { requests := reads ++ [sendRequest Method.put
                        (s.host ++ "/menu_native/dynamic/audio_settings/input/current_input")
                        (some s.authKey) (some data)]
                      outcome := chainOutcome modRes
                      state := s }

/-- A JavaScript value passed to `control.volume.set`: a number (idealised as a
rational), or a non-number value carrying its ToNumber coercion (`none` = NaN),
which is what the later `<`, `>` comparisons and `Math.round` operate on. -/
inductive JsVal
  | num (q : ℚ)
  | other (coerced : Option ℚ)
deriving DecidableEq

/-- JavaScript `typeof value === 'number'`. -/
def JsVal.isNumber : JsVal → Bool
  | JsVal.num _ => true
  | JsVal.other _ => false

/-- ToNumber coercion of a JavaScript value; `none` is NaN. -/
def JsVal.toNumber : JsVal → Option ℚ
  | JsVal.num q => some q
  | JsVal.other c => c

/-- JavaScript `value < c` for a numeric literal `c`: ToNumber then compare;
any comparison with NaN is false. -/
def jsValLt (v : JsVal) (c : ℚ) : Bool :=
  match v.toNumber with
  | some q => decide (q < c)
  | none => false

/-- JavaScript `value > c` for a numeric literal `c`. -/
def jsValGt (v : JsVal) (c : ℚ) : Bool :=
  match v.toNumber with
  | some q => decide (c < q)
  | none => false

/-- JavaScript `Math.round`: floor of the value plus one half; NaN in, NaN out. -/
def mathRound (v : JsVal) : JsNumber :=
  match v.toNumber with
  | some q => JsNumber.int (q + 1/2).floor
  | none => JsNumber.nan

/-- Embedding of `control.volume.get` (src/index.js lines 196-200): the wrapper
promise only forwards `resolve`; a transport failure has no handler, so the
returned promise never settles. -/
def control_volume_get {α : Type} (s : Session) (res : TResult α) : OpRun α :=
  { requests := [sendRequest Method.get
      (s.host ++ "/menu_native/dynamic/audio_settings/audio/volume") (some s.authKey) none]
    outcome := match res with
      | TResult.ok r => Outcome.resolved r
      | TResult.err _ => Outcome.pending
    state := s }

/-- Embedding of `control.volume.getMuteState` (src/index.js lines 225-229):
same swallowing wrapper as `control.volume.get`. -/
def control_volume_getMuteState {α : Type} (s : Session) (res : TResult α) : OpRun α :=
  { requests := [sendRequest Method.get
      (s.host ++ "/menu_native/dynamic/tv_settings/audio/mute") (some s.authKey) none]
    outcome := match res with
      | TResult.ok r => Outcome.resolved r
      | TResult.err _ => Outcome.pending
    state := s }

/-- Modelled from the spec: `this.settings.audio.get()` is called by
`control.volume.set` (src/index.js line 209), but no `settings` group is
defined anywhere under src/.  Per the spec (section 4.3 step 1 and section 6)
it is an authorized GET of the current audio-settings object, whose ITEMS each
carry a CNAME and a HASHVAL version token; the tv_settings audio path matches
the PUT endpoint the modify step uses. -/
def settings_audio_get_req (s : Session) : HttpReq :=
  sendRequest Method.get (s.host ++ "/menu_native/dynamic/tv_settings/audio")
    (some s.authKey) none

/-- The range-validation rejection string of `control.volume.set`. -/
def volumeRangeMsg : String :=
  "value is out of range, please enter a number between 0 to 100 inclusive"

/-- The non-number rejection string of `control.volume.set`. -/
def volumeTypeMsg : String := "value must be a number"

/-- The settle calls `control.volume.set`'s executor makes before any
asynchronous continuation runs: the validation `reject` calls do not return,
so execution continues past them. -/
def volume_set_early {α : Type} (value : JsVal) : List (Settle α) :=
  (if value.isNumber then [] else [Settle.rej (RejectReason.msg volumeTypeMsg)])
    ++ (if jsValLt value 0 ∨ jsValGt value 100 then
          [Settle.rej (RejectReason.msg volumeRangeMsg)]
        else [])

/-- Embedding of `control.volume.set` (src/index.js lines 201-224): validation
rejects are recorded but do not stop the flow; the audio-settings lookup is
always issued; if it succeeds and an item with CNAME "volume" exists, the
MODIFY request with the rounded value and that item's HASHVAL is issued; the
promise settles with the first settle call. -/
def control_volume_set {α : Type} (s : Session) (value : JsVal)
    (settingsRes : TResult AudioResp) (modRes : TResult α) : OpRun α :=
  match settingsRes with
  | TResult.err e =>
      { requests := [settings_audio_get_req s]
        outcome := settleOutcome
          (volume_set_early value ++ [Settle.rej (RejectReason.transport e)])
        state := s }
  | TResult.ok settings =>
      match settings.ITEMS.find? (fun i => i.CNAME = "volume") with
      | none =>
          { requests := [settings_audio_get_req s]
            outcome := settleOutcome
              (volume_set_early value
                ++ [Settle.rej (RejectReason.msg "no volume setting found")])
            state := s }
      | some volume =>
          let data := Body.modifyVolume "MODIFY" (mathRound value) volume.HASHVAL
          { requests := [settings_audio_get_req s,
              sendRequest Method.put (s.host ++ "/menu_native/dynamic/tv_settings/audio/volume")
                (some s.authKey) (some data)]
            outcome := settleOutcome
              (volume_set_early value
                ++ [match modRes with
                    | TResult.ok r => Settle.res r
                    | TResult.err e => Settle.rej (RejectReason.transport e)])
            state := s }

/-- A concrete session with a stored auth token, used in closed statements. -/
def exSession : Session :=
  { host := "https://192.168.1.10:9000"
    pairingRequestToken := ""
    authKey := "tok123"
    deviceId := ""
    deviceName := "" }

/-- A concrete audio-settings response containing a volume item. -/
def exAudio : AudioResp :=
  { ITEMS := [{ CNAME := "volume", HASHVAL := 771 }] }

/-- A concrete input list: one HDMI item with internal name `hdmi1` and
display name `HDMI-1`. -/
def exInputList : InputListResp :=
  { STATUS := { RESULT := "SUCCESS" }
    ITEMS := [{ NAME := "hdmi1", VALUE := { NAME := "HDMI-1" } }] }

/-- A concrete current-input response. -/
def exCurrentInput : CurrentInputResp :=
  { STATUS := { RESULT := "SUCCESS" }, ITEMS := [{ HASHVAL := 555 }] }

/-- A concrete failed input list (device reports a non-success status). -/
def exFailedList : InputListResp :=
  { STATUS := { RESULT := "FAILURE" }, ITEMS := [] }

/-- A concrete successful pairing response. -/
def exPairSuccess : PairResp :=
  { STATUS := some { RESULT := "SUCCESS" }
    ITEM := some { PAIRING_REQ_TOKEN := "req42", AUTH_TOKEN := "auth99" } }

/-- A concrete BLOCKED pairing response. -/
def exPairBlocked : PairResp :=
  { STATUS := some { RESULT := "BLOCKED" }, ITEM := none }

/-- A concrete generically failed pairing response. -/
def exPairDenied : PairResp :=
  { STATUS := some { RESULT := "DENIED" }, ITEM := none }

/-- C9: for every (codeset, code, action) triple with action one of the three
key actions or omitted, the body dispatched by `control.keyCommand` has a
single-element KEYLIST containing exactly CODESET = codeset, CODE = code and
ACTION = action, ACTION defaulting to KEYPRESS when the action is omitted. -/
theorem C9_keyCommand_body {α : Type} (s : Session) (codeset code : Int)
    (action : Option String) (res : TResult α)
    (hAct : action = none ∨ action = some "KEYPRESS" ∨ action = some "KEYDOWN"
      ∨ action = some "KEYUP") :
    (control_keyCommand s codeset code action res).requests =
      [sendRequest Method.put (s.host ++ "/key_command/") (some s.authKey)
        (some (Body.keyBody [{ CODESET := codeset, CODE := code, ACTION := action.getD "KEYPRESS" }]))] := by
  rcases hAct with h | h | h | h <;> subst h <;> rfl

/-- Witness for C9 at a concrete triple. -/
theorem C9_keyCommand_body_witness :
    (control_keyCommand exSession 5 1 (some "KEYDOWN") (TResult.ok ())).requests =
      [sendRequest Method.put (exSession.host ++ "/key_command/") (some exSession.authKey)
        (some (Body.keyBody [{ CODESET := 5, CODE := 1, ACTION := (some "KEYDOWN").getD "KEYPRESS" }]))] :=
  C9_keyCommand_body exSession 5 1 (some "KEYDOWN") (TResult.ok ())
    (Or.inr (Or.inr (Or.inl rfl)))

/-- C7: a BLOCKED result of `pairing.initiate` rejects with the dedicated
pairing-already-in-progress message, which is distinct from the generic
raw-response rejection, and the stored pairing-request token is unchanged. -/
theorem C7_initiate_blocked (s : Session) (deviceName deviceId : Option String)
    (t1 t2 : Nat) (data : PairResp) (st : Status)
    (hSt : data.STATUS = some st) (hB : st.RESULT = "BLOCKED") :
    (pairing_initiate s deviceName deviceId t1 t2 (TResult.ok data)).outcome
        = Outcome.rejected (RejectReason.msg blockedInitiateMsg)
      ∧ (pairing_initiate s deviceName deviceId t1 t2 (TResult.ok data)).state.pairingRequestToken
        = s.pairingRequestToken
      ∧ RejectReason.msg blockedInitiateMsg ≠ RejectReason.rawPair data := by
  refine ⟨?_, ?_, by simp⟩ <;> simp [pairing_initiate, hSt, hB]

/-- Witness for C7 at a concrete BLOCKED response. -/
theorem C7_initiate_blocked_witness :
    (pairing_initiate exSession none none 7 7 (TResult.ok exPairBlocked)).outcome
        = Outcome.rejected (RejectReason.msg blockedInitiateMsg)
      ∧ (pairing_initiate exSession none none 7 7 (TResult.ok exPairBlocked)).state.pairingRequestToken
        = exSession.pairingRequestToken
      ∧ RejectReason.msg blockedInitiateMsg ≠ RejectReason.rawPair exPairBlocked :=
  C7_initiate_blocked exSession none none 7 7 exPairBlocked { RESULT := "BLOCKED" } rfl rfl

/-- C8: `pairing.pair` stores the device-returned AUTH_TOKEN as the session
credential exactly on a SUCCESS response; any non-SUCCESS response rejects with
the raw response and leaves the whole session state unchanged; and for every
possible transport result the credential either stays what it was or equals the
AUTH_TOKEN of a SUCCESS response (no fabricated token). -/
theorem C8_pair_credential (s : Session) (pin : String) :
    (∀ data st item, data.STATUS = some st → st.RESULT = "SUCCESS" → data.ITEM = some item →
        (pairing_pair s pin (TResult.ok data)).outcome = Outcome.resolved data
          ∧ (pairing_pair s pin (TResult.ok data)).state.authKey = item.AUTH_TOKEN
          ∧ (pairing_pair s pin (TResult.ok data)).state.pairingRequestToken
              = s.pairingRequestToken)
  ∧ (∀ data st, data.STATUS = some st → st.RESULT ≠ "SUCCESS" →
        (pairing_pair s pin (TResult.ok data)).outcome
            = Outcome.rejected (RejectReason.rawPair data)
          ∧ (pairing_pair s pin (TResult.ok data)).state = s)
  ∧ (∀ res : TResult PairResp,
        (pairing_pair s pin res).state.authKey = s.authKey
          ∨ ∃ data st item, res = TResult.ok data ∧ data.STATUS = some st
              ∧ st.RESULT = "SUCCESS" ∧ data.ITEM = some item
              ∧ (pairing_pair s pin res).state.authKey = item.AUTH_TOKEN) := by
  refine ⟨?_, ?_, ?_⟩
  · intro data st item hSt hOk hItem
    refine ⟨?_, ?_, ?_⟩ <;> simp [pairing_pair, hSt, hOk, hItem]
  · intro data st hSt hBad
    refine ⟨?_, ?_⟩ <;> simp [pairing_pair, hSt, hBad]
  · intro res
    cases res with
    | err e => exact Or.inl rfl
    | ok data =>
        rcases hSt : data.STATUS with _ | st
        · left
          simp [pairing_pair, hSt]
        · by_cases hOk : st.RESULT = "SUCCESS"
          · rcases hItem : data.ITEM with _ | item
            · left
              simp [pairing_pair, hSt, hOk, hItem]
            · right
              exact ⟨data, st, item, rfl, hSt, hOk, hItem,
                by simp [pairing_pair, hSt, hOk, hItem]⟩
          · left
            simp [pairing_pair, hSt, hOk]

/-- Witness for C8: pairing a fresh session with a SUCCESS response stores the
returned auth token. -/
theorem C8_pair_credential_witness :
    (pairing_pair (smartcast "192.168.1.10" none) "1234"
        (TResult.ok exPairSuccess)).state.authKey = "auth99" :=
  ((C8_pair_credential (smartcast "192.168.1.10" none) "1234").1 exPairSuccess
    { RESULT := "SUCCESS" } { PAIRING_REQ_TOKEN := "req42", AUTH_TOKEN := "auth99" }
    rfl rfl rfl).2.1

/-- Helper: `pairing.initiate` issues the same single request whatever the
transport result is, its body carrying the freshly stored name and id. -/
theorem pairing_initiate_requests (s : Session) (dn di : Option String) (t1 t2 : Nat)
    (res : TResult PairResp) :
    (pairing_initiate s dn di t1 t2 res).requests
      = [sendRequest Method.put (s.host ++ "/pairing/start") none
          (some (Body.pairingStart (jsOr dn ("node-app-" ++ toString t1))
            (jsOr di ("node-app-" ++ toString t2))))] := by
  cases res with
  | err e => rfl
  | ok data =>
      rcases hSt : data.STATUS with _ | st
      · simp [pairing_initiate, hSt]
      · by_cases hOk : st.RESULT = "SUCCESS"
        · rcases hItem : data.ITEM with _ | item <;>
            simp [pairing_initiate, hSt, hOk, hItem]
        · by_cases hBl : st.RESULT = "BLOCKED" <;>
            simp [pairing_initiate, hSt, hOk, hBl]

/-- Helper: `pairing.pair` issues the same single request whatever the
transport result is (the request is built before the response is seen). -/
theorem pairing_pair_requests (s : Session) (pin : String) (res : TResult PairResp) :
    (pairing_pair s pin res).requests
      = [sendRequest Method.put (s.host ++ "/pairing/pair") none
          (some (Body.pairingPair s.deviceId 1 pin s.pairingRequestToken))] := by
  cases res with
  | err e => rfl
  | ok data =>
      rcases hSt : data.STATUS with _ | st
      · simp [pairing_pair, hSt]
      · by_cases hOk : st.RESULT = "SUCCESS"
        · rcases hItem : data.ITEM with _ | item <;> simp [pairing_pair, hSt, hOk, hItem]
        · simp [pairing_pair, hSt, hOk]

/-- C10: every `pairing.initiate` call overwrites the stored device name and
device id (argument or timestamp default) before the request is sent, for
every transport result including failures; the request body already carries the
new values, and a later `pairing.pair` sends the DEVICE_ID from this most
recent initiate call. -/
theorem C10_initiate_overwrites_device_fields (s : Session)
    (deviceName deviceId : Option String) (t1 t2 : Nat) (res : TResult PairResp)
    (pin : String) (res2 : TResult PairResp) :
    (pairing_initiate s deviceName deviceId t1 t2 res).state.deviceName
        = jsOr deviceName ("node-app-" ++ toString t1)
  ∧ (pairing_initiate s deviceName deviceId t1 t2 res).state.deviceId
        = jsOr deviceId ("node-app-" ++ toString t2)
  ∧ (pairing_initiate s deviceName deviceId t1 t2 res).requests
        = [sendRequest Method.put (s.host ++ "/pairing/start") none
            (some (Body.pairingStart (jsOr deviceName ("node-app-" ++ toString t1))
              (jsOr deviceId ("node-app-" ++ toString t2))))]
  ∧ (pairing_pair (pairing_initiate s deviceName deviceId t1 t2 res).state pin res2).requests
        = [sendRequest Method.put (s.host ++ "/pairing/pair") none
            (some (Body.pairingPair (jsOr deviceId ("node-app-" ++ toString t2)) 1 pin
              (pairing_initiate s deviceName deviceId t1 t2 res).state.pairingRequestToken))] := by
  have hrun : ∀ r : OpRun PairResp,
      r = pairing_initiate s deviceName deviceId t1 t2 res →
      r.state.deviceName = jsOr deviceName ("node-app-" ++ toString t1)
        ∧ r.state.deviceId = jsOr deviceId ("node-app-" ++ toString t2)
        ∧ r.state.host = s.host
        ∧ r.requests = [sendRequest Method.put (s.host ++ "/pairing/start") none
            (some (Body.pairingStart (jsOr deviceName ("node-app-" ++ toString t1))
              (jsOr deviceId ("node-app-" ++ toString t2))))] := by
    intro r hr
    subst hr
    cases res with
    | err e => exact ⟨rfl, rfl, rfl, rfl⟩
    | ok data =>
        rcases hSt : data.STATUS with _ | st
        · refine ⟨?_, ?_, ?_, ?_⟩ <;> simp [pairing_initiate, hSt]
        · by_cases hOk : st.RESULT = "SUCCESS"
          · rcases hItem : data.ITEM with _ | item
            · refine ⟨?_, ?_, ?_, ?_⟩ <;> simp [pairing_initiate, hSt, hOk, hItem]
            · refine ⟨?_, ?_, ?_, ?_⟩ <;> simp [pairing_initiate, hSt, hOk, hItem]
          · by_cases hBl : st.RESULT = "BLOCKED"
            · refine ⟨?_, ?_, ?_, ?_⟩ <;> simp [pairing_initiate, hSt, hOk, hBl]
            · refine ⟨?_, ?_, ?_, ?_⟩ <;> simp [pairing_initiate, hSt, hOk, hBl]
  obtain ⟨h1, h2, hh, h3⟩ := hrun _ rfl
  refine ⟨h1, h2, h3, ?_⟩
  rw [pairing_pair_requests, hh, h2]

/-- C4: when both reads of `input.set` complete but either response's
STATUS.RESULT is not SUCCESS, the operation rejects with the structured error
carrying both raw responses, and only the two read requests were issued (no
modify request). -/
theorem C4_input_set_status_failure {α : Type} (s : Session) (name : String)
    (L : InputListResp) (C : CurrentInputResp) (modRes : TResult α)
    (h : L.STATUS.RESULT ≠ "SUCCESS" ∨ C.STATUS.RESULT ≠ "SUCCESS") :
    input_set s name (TResult.ok L) (TResult.ok C) modRes =
      { requests := [input_list_req s, input_current_req s]
        outcome := Outcome.rejected (RejectReason.both L C)
        state := s } := by
  unfold input_set
  dsimp only
  rw [if_pos h]

/-- Witness for C4 at a concrete failed list response. -/
theorem C4_input_set_status_failure_witness :
    input_set exSession "hdmi1" (TResult.ok exFailedList) (TResult.ok exCurrentInput)
        (TResult.ok ()) =
      { requests := [input_list_req exSession, input_current_req exSession]
        outcome := Outcome.rejected (RejectReason.both exFailedList exCurrentInput)
        state := exSession } :=
  C4_input_set_status_failure exSession "hdmi1" exFailedList exCurrentInput (TResult.ok ())
    (Or.inl (by decide))

/-- C5: `input.set` resolves the requested name case-insensitively against the
internal name and the display name, an internal-name match anywhere in the list
taking priority, and the VALUE of the issued MODIFY request is the matched
item's stored internal name. -/
theorem C5_input_set_resolution {α : Type} (s : Session) (name n : String)
    (L : InputListResp) (C : CurrentInputResp) (c0 : CurrentItem) (modRes : TResult α)
    (hL : L.STATUS.RESULT = "SUCCESS") (hC : C.STATUS.RESULT = "SUCCESS")
    (hHead : C.ITEMS.head? = some c0)
    (hFind : findInputByName name L = some n) :
    (∃ it ∈ L.ITEMS, it.NAME = n
        ∧ (jsToLower it.NAME = jsToLower name ∨ jsToLower it.VALUE.NAME = jsToLower name))
  ∧ ((∃ it ∈ L.ITEMS, jsToLower it.NAME = jsToLower name) →
        ∃ it ∈ L.ITEMS, it.NAME = n ∧ jsToLower it.NAME = jsToLower name)
  ∧ (input_set s name (TResult.ok L) (TResult.ok C) modRes).requests
        = [input_list_req s, input_current_req s,
           sendRequest Method.put
             (s.host ++ "/menu_native/dynamic/audio_settings/input/current_input")
             (some s.authKey) (some (Body.modifyInput "MODIFY" n c0.HASHVAL))] := by
  have hnot : ¬(L.STATUS.RESULT ≠ "SUCCESS" ∨ C.STATUS.RESULT ≠ "SUCCESS") := by
    simp [hL, hC]
  refine ⟨?_, ?_, ?_⟩
  · unfold findInputByName at hFind
    rcases h1 : L.ITEMS.find? (fun it => jsToLower it.NAME = jsToLower name) with _ | it
    · rw [h1] at hFind
      rcases h2 : L.ITEMS.find? (fun it => jsToLower it.VALUE.NAME = jsToLower name) with _ | it
      · rw [h2] at hFind
        exact absurd hFind (by simp)
      · rw [h2] at hFind
        refine ⟨it, List.mem_of_find?_eq_some h2, by injection hFind, Or.inr ?_⟩
        have := List.find?_some h2
        simpa using this
    · rw [h1] at hFind
      refine ⟨it, List.mem_of_find?_eq_some h1, by injection hFind, Or.inl ?_⟩
      have := List.find?_some h1
      simpa using this
  · intro hEx
    unfold findInputByName at hFind
    rcases h1 : L.ITEMS.find? (fun it => jsToLower it.NAME = jsToLower name) with _ | it
    · exfalso
      rcases hEx with ⟨it, hMem, hMatch⟩
      have := List.find?_eq_none.mp h1 it hMem
      simp [hMatch] at this
    · rw [h1] at hFind
      refine ⟨it, List.mem_of_find?_eq_some h1, by injection hFind, ?_⟩
      have := List.find?_some h1
      simpa using this
  · unfold input_set
    dsimp only
    rw [if_neg hnot, hFind, hHead]
    rfl

/-- Witness for C5: the spec's HDMI-1 example, where the display name matches
case-insensitively and the request carries the internal name hdmi1. -/
theorem C5_input_set_resolution_witness :
    (input_set exSession "HDMI-1" (TResult.ok exInputList) (TResult.ok exCurrentInput)
        (TResult.ok ())).requests
      = [input_list_req exSession, input_current_req exSession,
         sendRequest Method.put
           (exSession.host ++ "/menu_native/dynamic/audio_settings/input/current_input")
           (some exSession.authKey) (some (Body.modifyInput "MODIFY" "hdmi1" 555))] :=
  (C5_input_set_resolution exSession "HDMI-1" "hdmi1" exInputList exCurrentInput
    { HASHVAL := 555 } (TResult.ok ()) rfl rfl rfl (by decide)).2.2

/-- Helper: the run of `control.volume.set` when the settings read succeeds and
contains a volume item, for an arbitrary value: both requests are issued and
the promise settles with the first settle call. -/
theorem control_volume_set_found {α : Type} (s : Session) (value : JsVal)
    (settings : AudioResp) (vol : AudioItem) (modRes : TResult α)
    (hvol : settings.ITEMS.find? (fun i => i.CNAME = "volume") = some vol) :
    control_volume_set s value (TResult.ok settings) modRes =
      { requests := [settings_audio_get_req s,
          sendRequest Method.put (s.host ++ "/menu_native/dynamic/tv_settings/audio/volume")
            (some s.authKey)
            (some (Body.modifyVolume "MODIFY" (mathRound value) vol.HASHVAL))]
        outcome := settleOutcome (volume_set_early value
          ++ [match modRes with
              | TResult.ok r => Settle.res r
              | TResult.err e => Settle.rej (RejectReason.transport e)])
        state := s } := by
  unfold control_volume_set
  dsimp only
  rw [hvol]

/-- C1: for a numeric volume value in [0, 100], `control.volume.set` issues the
audio-settings read and then a MODIFY request whose body carries REQUEST
MODIFY, VALUE the rounded value, and HASHVAL the token of the volume item
found in that read; the promise resolves with the modify response. -/
theorem C1_volume_set_modify {α : Type} (s : Session) (q : ℚ) (settings : AudioResp)
    (vol : AudioItem) (r : α)
    (h0 : 0 ≤ q) (h1 : q ≤ 100)
    (hvol : settings.ITEMS.find? (fun i => i.CNAME = "volume") = some vol) :
    control_volume_set s (JsVal.num q) (TResult.ok settings) (TResult.ok r) =
      { requests := [settings_audio_get_req s,
          sendRequest Method.put (s.host ++ "/menu_native/dynamic/tv_settings/audio/volume")
            (some s.authKey)
            (some (Body.modifyVolume "MODIFY" (JsNumber.int (q + 1/2).floor) vol.HASHVAL))]
        outcome := Outcome.resolved r
        state := s } := by
  have hearly : volume_set_early (α := α) (JsVal.num q) = [] := by
    simp [volume_set_early, JsVal.isNumber, jsValLt, jsValGt, JsVal.toNumber,
      h0.not_lt, h1.not_lt]
  rw [control_volume_set_found s (JsVal.num q) settings vol (TResult.ok r) hvol]
  simp [hearly, settleOutcome, mathRound, JsVal.toNumber]

/-- Witness for C1: set(42) sends VALUE 42 and the HASHVAL of the volume item
returned by the read. -/
theorem C1_volume_set_modify_witness :
    control_volume_set exSession (JsVal.num 42) (TResult.ok exAudio) (TResult.ok ()) =
      { requests := [settings_audio_get_req exSession,
          sendRequest Method.put
            (exSession.host ++ "/menu_native/dynamic/tv_settings/audio/volume")
            (some exSession.authKey)
            (some (Body.modifyVolume "MODIFY" (JsNumber.int 42) 771))]
        outcome := Outcome.resolved ()
        state := exSession } := by
  have hfl : ((42 : ℚ) + 1/2).floor = (42 : Int) := by norm_num [Rat.floor]
  have h := C1_volume_set_modify exSession (42 : ℚ) exAudio
    { CNAME := "volume", HASHVAL := 771 } () (by decide) (by decide) (by decide)
  rw [h, hfl]

/-- Helper: `input.set` issues either just the two reads, or the two reads
followed by a PUT of some body to the current-input URL with the stored key. -/
theorem input_set_requests {α : Type} (s : Session) (name : String)
    (resL : TResult InputListResp) (resC : TResult CurrentInputResp)
    (modRes : TResult α) :
    (input_set s name resL resC modRes).requests = [input_list_req s, input_current_req s]
  ∨ ∃ b, (input_set s name resL resC modRes).requests
      = [input_list_req s, input_current_req s,
         sendRequest Method.put
           (s.host ++ "/menu_native/dynamic/audio_settings/input/current_input")
           (some s.authKey) (some b)] := by
  cases resL with
  | err e => exact Or.inl rfl
  | ok L =>
      cases resC with
      | err e => exact Or.inl rfl
      | ok C =>
          unfold input_set
          dsimp only
          by_cases hS : L.STATUS.RESULT ≠ "SUCCESS" ∨ C.STATUS.RESULT ≠ "SUCCESS"
          · rw [if_pos hS]
            exact Or.inl rfl
          · rw [if_neg hS]
            rcases hf : findInputByName name L with _ | n
            · exact Or.inl rfl
            · rcases hh : C.ITEMS.head? with _ | c0
              · exact Or.inl rfl
              · exact Or.inr ⟨Body.modifyInput "MODIFY" n c0.HASHVAL, rfl⟩

/-- Helper: `control.volume.set` issues either just the settings lookup, or the
lookup followed by a PUT of some body to the volume URL with the stored key. -/
theorem control_volume_set_requests {α : Type} (s : Session) (value : JsVal)
    (settingsRes : TResult AudioResp) (modRes : TResult α) :
    (control_volume_set s value settingsRes modRes).requests = [settings_audio_get_req s]
  ∨ ∃ b, (control_volume_set s value settingsRes modRes).requests
      = [settings_audio_get_req s,
         sendRequest Method.put (s.host ++ "/menu_native/dynamic/tv_settings/audio/volume")
           (some s.authKey) (some b)] := by
  cases settingsRes with
  | err e => exact Or.inl rfl
  | ok settings =>
      unfold control_volume_set
      dsimp only
      rcases hf : settings.ITEMS.find? (fun i => i.CNAME = "volume") with _ | vol
      · rw [hf]
        exact Or.inl rfl
      · rw [hf]
        exact Or.inr ⟨Body.modifyVolume "MODIFY" (mathRound value) vol.HASHVAL, rfl⟩

/-- C6 counterexample: `control.volume.set(150)` settles with the
range-validation rejection, yet (contrary to the claim's "issues no network
request at all") it still issues the settings lookup and even the MODIFY
request carrying VALUE 150. -/
theorem C6_volume_set_counterexample :
    (control_volume_set exSession (JsVal.num 150) (TResult.ok exAudio) (TResult.ok ())).outcome
        = Outcome.rejected (RejectReason.msg volumeRangeMsg)
  ∧ (control_volume_set exSession (JsVal.num 150) (TResult.ok exAudio) (TResult.ok ())).requests
        = [settings_audio_get_req exSession,
           sendRequest Method.put
             (exSession.host ++ "/menu_native/dynamic/tv_settings/audio/volume")
             (some exSession.authKey)
             (some (Body.modifyVolume "MODIFY" (JsNumber.int 150) 771))] := by
  have hfl : ((150 : ℚ) + 2⁻¹).floor = (150 : Int) := by norm_num [Rat.floor]
  have h := control_volume_set_found exSession (JsVal.num 150) exAudio
    { CNAME := "volume", HASHVAL := 771 } (TResult.ok ()) (by decide)
  rw [h]
  have hlt : jsValLt (JsVal.num 150) 0 = false := by decide
  have hgt : jsValGt (JsVal.num 150) 100 = true := by decide
  refine ⟨?_, ?_⟩
  · simp [volume_set_early, JsVal.isNumber, hlt, hgt, settleOutcome]
  · simp [mathRound, JsVal.toNumber, hfl]

/-- C6 amended: a non-numeric or out-of-range value makes `control.volume.set`
settle with the corresponding validation rejection (the validation reject
call fires before anything else, so it wins), but the operation does not
short-circuit: the settings-lookup request is still issued (and, when the
lookup succeeds with a volume item, the MODIFY request as well). -/
theorem C6_volume_set_validation {α : Type} (s : Session) (value : JsVal)
    (settingsRes : TResult AudioResp) (modRes : TResult α)
    (h : value.isNumber = false ∨ jsValLt value 0 = true ∨ jsValGt value 100 = true) :
    (control_volume_set s value settingsRes modRes).outcome
        = Outcome.rejected (RejectReason.msg
            (if value.isNumber then volumeRangeMsg else volumeTypeMsg))
  ∧ (control_volume_set s value settingsRes modRes).requests.head?
        = some (settings_audio_get_req s) := by
  have hearly : ∃ t, volume_set_early (α := α) value
      = Settle.rej (RejectReason.msg
          (if value.isNumber then volumeRangeMsg else volumeTypeMsg)) :: t := by
    cases hn : value.isNumber with
    | false =>
        exact ⟨(if jsValLt value 0 ∨ jsValGt value 100 then
          [Settle.rej (RejectReason.msg volumeRangeMsg)] else []),
          by simp [volume_set_early, hn]⟩
    | true =>
        rcases h with h | h | h
        · rw [hn] at h
          exact absurd h (by simp)
        · exact ⟨[], by simp [volume_set_early, hn, h]⟩
        · exact ⟨[], by simp [volume_set_early, hn, h]⟩
  obtain ⟨t, ht⟩ := hearly
  constructor
  · cases settingsRes with
    | err e =>
        unfold control_volume_set
        dsimp only
        rw [ht]
        rfl
    | ok settings =>
        unfold control_volume_set
        dsimp only
        rcases hf : settings.ITEMS.find? (fun i => i.CNAME = "volume") with _ | vol
        · rw [hf, ht]
          rfl
        · rw [hf, ht]
          rfl
  · rcases control_volume_set_requests s value settingsRes modRes with hr | ⟨b, hr⟩ <;>
      rw [hr] <;> rfl

/-- Witness for the amended C6 at the concrete out-of-range value 150. -/
theorem C6_volume_set_validation_witness :
    (control_volume_set exSession (JsVal.num 150) (TResult.err "down") (TResult.ok ())).outcome
        = Outcome.rejected (RejectReason.msg
            (if (JsVal.num 150).isNumber then volumeRangeMsg else volumeTypeMsg))
  ∧ (control_volume_set exSession (JsVal.num 150) (TResult.err "down")
        (TResult.ok ())).requests.head? = some (settings_audio_get_req exSession) :=
  C6_volume_set_validation exSession (JsVal.num 150) (TResult.err "down") (TResult.ok ())
    (Or.inr (Or.inr (by decide)))

/-- C2 counterexample: on a session with the stored token "tok123",
`power.currentMode` issues its request without any AUTH header, because the
code never passes the stored key to `sendRequest` for this operation. -/
theorem C2_currentMode_counterexample :
    exSession.authKey = "tok123"
  ∧ (power_currentMode exSession (TResult.ok ())).requests
      = [{ method := Method.get, url := "https://192.168.1.10:9000/state/device/power_mode", auth := none, body := none }] :=
  ⟨rfl, rfl⟩

/-- C2 amended: on a session with a non-empty stored token, every request of
the token-using operations carries the AUTH header with that token, the URL a
request is sent to is exactly the one passed to `sendRequest` (the token is
never appended to it), and the requests sent without the header are those of
`pairing.initiate`, `pairing.pair` and also `power.currentMode`. -/
theorem C2_auth_header {α : Type} (s : Session) (res : TResult α)
    (resp : TResult PairResp) (resL : TResult InputListResp)
    (resC : TResult CurrentInputResp) (modRes : TResult α)
    (settingsRes : TResult AudioResp) (name pin : String) (dn di : Option String)
    (t1 t2 : Nat) (codeset code : Int) (action : Option String) (value : JsVal)
    (hk : s.authKey ≠ "") :
    (∀ m u k d, (sendRequest m u k d).url = u)
  ∧ (input_list s resL).requests.map HttpReq.auth = [some s.authKey]
  ∧ (input_current s resC).requests.map HttpReq.auth = [some s.authKey]
  ∧ (∀ req ∈ (input_set s name resL resC modRes).requests, req.auth = some s.authKey)
  ∧ (control_keyCommand s codeset code action res).requests.map HttpReq.auth
      = [some s.authKey]
  ∧ (control_volume_get s res).requests.map HttpReq.auth = [some s.authKey]
  ∧ (∀ req ∈ (control_volume_set s value settingsRes modRes).requests,
        req.auth = some s.authKey)
  ∧ (control_volume_getMuteState s res).requests.map HttpReq.auth = [some s.authKey]
  ∧ (pairing_initiate s dn di t1 t2 resp).requests.map HttpReq.auth = [none]
  ∧ (pairing_pair s pin resp).requests.map HttpReq.auth = [none]
  ∧ (power_currentMode s res).requests.map HttpReq.auth = [none] := by
  have hauth : ∀ (m : Method) u d, (sendRequest m u (some s.authKey) d).auth
      = some s.authKey := by
    intro m u d
    simp [sendRequest, hk]
  have hinit := pairing_initiate_requests s dn di t1 t2 resp
  refine ⟨fun m u k d => rfl, ?_, ?_, ?_, ?_, ?_, ?_, ?_, ?_, ?_, ?_⟩
  · simp [input_list, input_list_req, hauth]
  · simp [input_current, input_current_req, hauth]
  · intro req hreq
    rcases input_set_requests s name resL resC modRes with hr | ⟨b, hr⟩ <;>
        rw [hr] at hreq <;> simp at hreq
    · rcases hreq with h | h <;> subst h <;> exact hauth _ _ _
    · rcases hreq with h | h | h <;> subst h <;> exact hauth _ _ _
  · simp [control_keyCommand, hauth]
  · simp [control_volume_get, hauth]
  · intro req hreq
    rcases control_volume_set_requests s value settingsRes modRes with hr | ⟨b, hr⟩ <;>
        rw [hr] at hreq <;> simp at hreq
    · subst hreq
      exact hauth _ _ _
    · rcases hreq with h | h <;> subst h <;> exact hauth _ _ _
  · simp [control_volume_getMuteState, hauth]
  · simp [hinit, sendRequest]
  · simp [pairing_pair_requests, sendRequest]
  · simp [power_currentMode, sendRequest]

/-- Witness for the amended C2 at a concrete session and operation. -/
theorem C2_auth_header_witness :
    (control_volume_get exSession (TResult.ok ())).requests.map HttpReq.auth
      = [some exSession.authKey] :=
  (C2_auth_header exSession (TResult.ok ()) (TResult.ok exPairSuccess)
    (TResult.ok exInputList) (TResult.ok exCurrentInput) (TResult.ok ())
    (TResult.ok exAudio) "hdmi1" "1234" none none 0 0 5 1 none (JsVal.num 0)
    (by decide)).2.2.2.2.2.1

/-- C3 counterexample: a transport failure of `control.volume.get` is not
turned into a rejection; the returned promise never settles. -/
theorem C3_volume_get_counterexample :
    (control_volume_get exSession (TResult.err "ECONNREFUSED") : OpRun Unit).outcome
        = Outcome.pending
  ∧ (control_volume_get exSession (TResult.err "ECONNREFUSED") : OpRun Unit).outcome
        ≠ Outcome.rejected (RejectReason.transport "ECONNREFUSED") :=
  ⟨rfl, by decide⟩

/-- C3 amended: every operation propagates a transport failure to the caller as
a rejection carrying the underlying error, except `control.volume.get` and
`control.volume.getMuteState`, whose wrapper promise installs no failure
handler and therefore never settles when the transport fails. -/
theorem C3_transport_failures (s : Session) (e : String) (q : ℚ)
    (h0 : 0 ≤ q) (h1 : q ≤ 100) :
    (power_currentMode s (TResult.err e) : OpRun Unit).outcome
        = Outcome.rejected (RejectReason.transport e)
  ∧ (∀ dn di t1 t2, (pairing_initiate s dn di t1 t2 (TResult.err e)).outcome
        = Outcome.rejected (RejectReason.transport e))
  ∧ (∀ pin, (pairing_pair s pin (TResult.err e)).outcome
        = Outcome.rejected (RejectReason.transport e))
  ∧ (input_list s (TResult.err e)).outcome = Outcome.rejected (RejectReason.transport e)
  ∧ (input_current s (TResult.err e)).outcome = Outcome.rejected (RejectReason.transport e)
  ∧ (∀ name resC, ∀ modRes : TResult Unit,
        (input_set s name (TResult.err e) resC modRes).outcome
          = Outcome.rejected (RejectReason.transport e))
  ∧ (∀ name L, ∀ modRes : TResult Unit,
        (input_set s name (TResult.ok L) (TResult.err e) modRes).outcome
          = Outcome.rejected (RejectReason.transport e))
  ∧ (∀ name L C n c0, L.STATUS.RESULT = "SUCCESS" → C.STATUS.RESULT = "SUCCESS" →
        findInputByName name L = some n → C.ITEMS.head? = some c0 →
        (input_set (α := Unit) s name (TResult.ok L) (TResult.ok C)
            (TResult.err e)).outcome = Outcome.rejected (RejectReason.transport e))
  ∧ (∀ codeset code action,
        (control_keyCommand (α := Unit) s codeset code action (TResult.err e)).outcome
          = Outcome.rejected (RejectReason.transport e))
  ∧ (∀ modRes : TResult Unit,
        (control_volume_set s (JsVal.num q) (TResult.err e) modRes).outcome
          = Outcome.rejected (RejectReason.transport e))
  ∧ (∀ settings vol, settings.ITEMS.find? (fun i => i.CNAME = "volume") = some vol →
        (control_volume_set (α := Unit) s (JsVal.num q) (TResult.ok settings)
            (TResult.err e)).outcome = Outcome.rejected (RejectReason.transport e))
  ∧ (control_volume_get s (TResult.err e) : OpRun Unit).outcome = Outcome.pending
  ∧ (control_volume_getMuteState s (TResult.err e) : OpRun Unit).outcome
      = Outcome.pending := by
  have hearly : ∀ α, volume_set_early (α := α) (JsVal.num q) = [] := by
    intro α
    simp [volume_set_early, JsVal.isNumber, jsValLt, jsValGt, JsVal.toNumber,
      h0.not_lt, h1.not_lt]
  refine ⟨rfl, fun dn di t1 t2 => rfl, fun pin => rfl, rfl, rfl,
    fun name resC modRes => rfl, fun name L modRes => rfl, ?_,
    fun codeset code action => rfl, ?_, ?_, rfl, rfl⟩
  · intro name L C n c0 hL hC hFind hHead
    have hnot : ¬(L.STATUS.RESULT ≠ "SUCCESS" ∨ C.STATUS.RESULT ≠ "SUCCESS") := by
      simp [hL, hC]
    unfold input_set
    dsimp only
    rw [if_neg hnot, hFind, hHead]
    rfl
  · intro modRes
    unfold control_volume_set
    dsimp only
    rw [hearly]
    rfl
  · intro settings vol hvol
    rw [control_volume_set_found s (JsVal.num q) settings vol (TResult.err e) hvol]
    rw [hearly Unit]
    rfl

/-- Witness for the amended C3 at a concrete failing transport. -/
theorem C3_transport_failures_witness :
    (power_currentMode exSession (TResult.err "boom") : OpRun Unit).outcome
      = Outcome.rejected (RejectReason.transport "boom") :=
  (C3_transport_failures exSession "boom" 42 (by decide) (by decide)).1

end VizioSmartcast
